import Mathlib

/-!
Shallow embedding of `src/shasta_sdk.py`, a thin client library over a REST
API whose only algorithmic component is a retry-with-exponential-backoff
request wrapper (`handle_request_with_retries`).  HTTP is abstracted by a
response oracle `responses : Nat → Response` giving the server's answer to
the i-th request of a call; the wrapper's observable behaviour is recorded
in a `Trace` (final outcome, number of requests sent, list of sleep
durations).  Resource functions are embedded as request builders (the
method, URL, query parameters and JSON body they construct, mirroring the
Python dict literals field by field) composed with the wrapper.
-/

/-- Constant `MAX_RETRIES = 5` from the source. -/
def MAX_RETRIES : Nat := 5

/-- Constant `RETRY_BACKOFF_FACTOR = 2` (seconds) from the source. -/
def RETRY_BACKOFF_FACTOR : Nat := 2

/-- Constant `BASE_URL` from the source. -/
def BASE_URL : String := "https://api-stg.shastacloud.com"

/-- Constant `MSP_ORG_ID` from the source (a string in the Python code). -/
def MSP_ORG_ID : String := "317"

/-- An HTTP response: status code plus body.  `response.json()` is modelled
as returning the body verbatim (the source does no schema validation). -/
structure Response where
  status_code : Nat
  body : String
deriving DecidableEq, Repr

/-- Value of a query parameter (Python dict values are ints or strings). -/
inductive PValue where
  | int (n : Int)
  | str (s : String)
deriving DecidableEq, Repr

/-- A JSON value, enough for the payload literals in the source. -/
inductive JsonValue where
  | str (s : String)
  | num (n : Int)
  | bool (b : Bool)
  | obj (fields : List (String × JsonValue))

/-- Field lookup in a JSON object (`None` on non-objects/missing keys). -/
def JsonValue.getField : JsonValue → String → Option JsonValue
  | JsonValue.obj fields, key => List.lookup key fields
  | _, _ => Option.none

/-- The request descriptor handed to `handle_request_with_retries`:
method, URL, query parameters (in dict insertion order) and JSON body. -/
structure Request where
  method : String
  url : String
  params : List (String × PValue)
  body : Option JsonValue

/-- Final outcome of one `handle_request_with_retries` call:
the returned response, the exception of `raise_for_status` (carrying status
and body), or the final `Exception` raised when retries are exhausted. -/
inductive Outcome where
  | returned (r : Response)
  | httpError (status : Nat) (body : String)
  | retryExhausted
deriving DecidableEq, Repr

/-- Observable behaviour of a call: outcome, number of HTTP requests
actually sent, and the list of sleep durations in order. -/
structure Trace where
  outcome : Outcome
  requests : Nat
  sleeps : List Nat
deriving DecidableEq, Repr

/-- Whether `response.raise_for_status()` raises: it does exactly for statuses in
`[400, 600)` (Python requests: client and server errors). -/
def raise_for_status_raises (status : Nat) : Bool :=
  decide (400 ≤ status) && decide (status < 600)

/-- The `while retries <= MAX_RETRIES` loop of
`handle_request_with_retries`, entered with counter `retries`.  Each
iteration sends one request (consulting the oracle at the current attempt
index); a 429 sleeps `RETRY_BACKOFF_FACTOR ** retries` and retries, any
other status either raises via `raise_for_status` or returns the
response; falling out of the loop raises the retries-exhausted
`Exception`. -/
def handleLoop (responses : Nat → Response) (retries : Nat) : Trace :=
  if h : retries ≤ MAX_RETRIES then
    let response := responses retries
    if response.status_code = 429 then
      let rest := handleLoop responses (retries + 1)
      { outcome := rest.outcome
        requests := rest.requests + 1
        sleeps := RETRY_BACKOFF_FACTOR ^ retries :: rest.sleeps }
    else if raise_for_status_raises response.status_code then
      { outcome := Outcome.httpError response.status_code response.body
        requests := 1
        sleeps := [] }
    else
      { outcome := Outcome.returned response
        requests := 1
        sleeps := [] }
  else
    { outcome := Outcome.retryExhausted, requests := 0, sleeps := [] }
termination_by MAX_RETRIES + 1 - retries
decreasing_by omega

/-- Function `handle_request_with_retries`: sends `req` with `retries = 0`.  The
request descriptor records what is sent; the network is the oracle. -/
def handle_request_with_retries (req : Request) (responses : Nat → Response) :
    Trace :=
  handleLoop responses 0

/-- Unfolding equation for one iteration of the retry loop. -/
theorem handleLoop_eq (responses : Nat → Response) (retries : Nat) :
    handleLoop responses retries =
      if retries ≤ MAX_RETRIES then
        if (responses retries).status_code = 429 then
          { outcome := (handleLoop responses (retries + 1)).outcome
            requests := (handleLoop responses (retries + 1)).requests + 1
            sleeps := RETRY_BACKOFF_FACTOR ^ retries ::
              (handleLoop responses (retries + 1)).sleeps }
        else if raise_for_status_raises (responses retries).status_code then
          { outcome := Outcome.httpError (responses retries).status_code
              (responses retries).body
            requests := 1
            sleeps := [] }
        else
          { outcome := Outcome.returned (responses retries)
            requests := 1
            sleeps := [] }
      else
        { outcome := Outcome.retryExhausted, requests := 0, sleeps := [] } := by
  rw [handleLoop]
  by_cases h : retries ≤ MAX_RETRIES <;> simp [h]

/-- Falling out of the loop (`retries > MAX_RETRIES`) raises the
retries-exhausted exception without sending any request. -/
theorem handleLoop_base (responses : Nat → Response) (r : Nat)
    (h : MAX_RETRIES + 1 ≤ r) :
    handleLoop responses r =
      { outcome := Outcome.retryExhausted, requests := 0, sleeps := [] } := by
  rw [handleLoop_eq, if_neg (by omega)]

/-- An in-budget iteration whose response is neither 429 nor a
`raise_for_status` error returns that response after one request. -/
theorem handleLoop_return (responses : Nat → Response) (r : Nat)
    (hr : r ≤ MAX_RETRIES) (h429 : (responses r).status_code ≠ 429)
    (hok : raise_for_status_raises (responses r).status_code = false) :
    handleLoop responses r =
      { outcome := Outcome.returned (responses r), requests := 1,
        sleeps := [] } := by
  rw [handleLoop_eq, if_pos hr, if_neg h429, if_neg (by simp [hok])]

/-- An in-budget iteration whose response status makes `raise_for_status`
raise surfaces an HTTP error after one request, with no sleep. -/
theorem handleLoop_raise (responses : Nat → Response) (r : Nat)
    (hr : r ≤ MAX_RETRIES) (h429 : (responses r).status_code ≠ 429)
    (herr : raise_for_status_raises (responses r).status_code = true) :
    handleLoop responses r =
      { outcome := Outcome.httpError (responses r).status_code
          (responses r).body,
        requests := 1, sleeps := [] } := by
  rw [handleLoop_eq, if_pos hr, if_neg h429, if_pos (by simp [herr])]

/-- Skipping over `k` consecutive rate-limited responses: the loop sends
`k` extra requests, sleeps `RETRY_BACKOFF_FACTOR ^ i` for each attempt
index `i` in `[r, r + k)`, and then behaves as from counter `r + k`. -/
theorem handleLoop_skip (responses : Nat → Response) :
    ∀ (k r : Nat), r + k ≤ MAX_RETRIES + 1 →
      (∀ i, i < k → (responses (r + i)).status_code = 429) →
      handleLoop responses r =
        { outcome := (handleLoop responses (r + k)).outcome
          requests := (handleLoop responses (r + k)).requests + k
          sleeps :=
            (List.range' r k).map (fun i => RETRY_BACKOFF_FACTOR ^ i) ++
              (handleLoop responses (r + k)).sleeps } := by
  intro k
  induction k with
  | zero => intro r _ _; simp
  | succ k ih =>
    intro r hle h429
    have hr : r ≤ MAX_RETRIES := by omega
    have h0 : (responses r).status_code = 429 := by
      have h := h429 0 (Nat.succ_pos k)
      simpa using h
    have hrk : r + 1 + k = r + (k + 1) := by omega
    rw [handleLoop_eq, if_pos hr, if_pos h0,
      ih (r + 1) (by omega) (fun i hi => by
        have h := h429 (i + 1) (by omega)
        have hx : r + (i + 1) = r + 1 + i := by omega
        rw [hx] at h
        exact h)]
    simp [List.range'_succ, hrk, Nat.add_assoc]

/-- The loop sends at most `MAX_RETRIES + 1 - r` requests from counter
`r`. -/
theorem handleLoop_requests_le (responses : Nat → Response) :
    ∀ (n r : Nat), MAX_RETRIES + 1 - r = n →
      (handleLoop responses r).requests ≤ n := by
  intro n
  induction n with
  | zero =>
    intro r hn
    rw [handleLoop_base responses r (by omega)]
  | succ n ih =>
    intro r hn
    rw [handleLoop_eq]
    by_cases hr : r ≤ MAX_RETRIES
    · by_cases h429 : (responses r).status_code = 429
      · have h := ih (r + 1) (by omega)
        simp only [if_pos hr, if_pos h429]
        omega
      · simp only [if_pos hr, if_neg h429]
        by_cases herr : raise_for_status_raises (responses r).status_code
        · simp [herr]
        · simp [herr]
    · simp [hr]

/-- Result of an API function: the value it returns, or the exception it
propagates from `handle_request_with_retries`. -/
inductive ApiResult (α : Type) where
  | ok (a : α)
  | httpError (status : Nat) (body : String)
  | retryExhausted

/-- Call to `response.json()` composed with exception propagation: API functions
that end in `return response.json()`. -/
def jsonResult (t : Trace) : ApiResult String :=
  match t.outcome with
  | Outcome.returned r => ApiResult.ok r.body
  | Outcome.httpError s b => ApiResult.httpError s b
  | Outcome.retryExhausted => ApiResult.retryExhausted

/-- Access to `response.status_code` composed with exception propagation: API
functions that end in `return response.status_code`. -/
def statusResult (t : Trace) : ApiResult Nat :=
  match t.outcome with
  | Outcome.returned r => ApiResult.ok r.status_code
  | Outcome.httpError s b => ApiResult.httpError s b
  | Outcome.retryExhausted => ApiResult.retryExhausted

/-- Truthiness of the optional `search_query` argument (`if search_query:`
in Python): `None` and the empty string are falsy. -/
def pyTruthy : Option String → Bool
  | Option.none => false
  | Option.some s => !s.isEmpty

/-- The request built by `create_business_org`, payload field for field. -/
def create_business_org_request (org_display_name : String)
    (org_type_id parent_org_id : Int) (address : String) : Request :=
  { method := "POST"
    url := BASE_URL ++ "/organization"
    params := []
    body := Option.some (JsonValue.obj [
      ("orgDisplayName", JsonValue.str org_display_name),
      ("orgTypeId", JsonValue.num org_type_id),
      ("parentOrgId", JsonValue.num parent_org_id),
      ("phone", JsonValue.str ""),
      ("notes", JsonValue.str ""),
      ("billingRecipients", JsonValue.str ""),
      ("orgAddress", JsonValue.obj [("addressLine", JsonValue.str address)]),
      ("billingAddress",
        JsonValue.obj [("addressLine", JsonValue.str address)])]) }

/-- Function `create_business_org`: builds the payload and delegates, returning the
parsed body. -/
def create_business_org (org_display_name : String)
    (org_type_id parent_org_id : Int) (address : String)
    (responses : Nat → Response) : ApiResult String :=
  jsonResult (handle_request_with_retries
    (create_business_org_request org_display_name org_type_id parent_org_id
      address) responses)

/-- The request built by `find_business_org` (the `search` key is always
present, first in dict insertion order). -/
def find_business_org_request (search_query : String)
    (offset limit : Int) (order order_by : String) : Request :=
  { method := "GET"
    url := BASE_URL ++ "/organization/" ++ MSP_ORG_ID ++ "/child"
    params := [("search", PValue.str search_query),
      ("offset", PValue.int offset), ("limit", PValue.int limit),
      ("order", PValue.str order), ("orderBy", PValue.str order_by)]
    body := Option.none }

/-- Function `find_business_org`. -/
def find_business_org (search_query : String) (offset limit : Int)
    (order order_by : String) (responses : Nat → Response) :
    ApiResult String :=
  jsonResult (handle_request_with_retries
    (find_business_org_request search_query offset limit order order_by)
    responses)

/-- The request built by `get_venues`: the base parameter dict, with
`search` appended only when `search_query` is truthy. -/
def get_venues_request (org_id offset limit : Int)
    (order order_by : String) (search_query : Option String) : Request :=
  let params := [("orgId", PValue.int org_id), ("offset", PValue.int offset),
    ("limit", PValue.int limit), ("order", PValue.str order),
    ("orderBy", PValue.str order_by)]
  let params := if pyTruthy search_query then
      params ++ [("search", PValue.str (search_query.getD ""))]
    else params
  { method := "GET", url := BASE_URL ++ "/venues", params := params,
    body := Option.none }

/-- Function `get_venues`. -/
def get_venues (org_id offset limit : Int) (order order_by : String)
    (search_query : Option String) (responses : Nat → Response) :
    ApiResult String :=
  jsonResult (handle_request_with_retries
    (get_venues_request org_id offset limit order order_by search_query)
    responses)

/-- The request built by `create_venue`, payload field for field. -/
def create_venue_request (org_id : Int) (venue_name address : String) :
    Request :=
  { method := "POST"
    url := BASE_URL ++ "/venues"
    params := []
    body := Option.some (JsonValue.obj [
      ("orgId", JsonValue.num org_id),
      ("parentVenueId", JsonValue.num 0),
      ("venueName", JsonValue.str venue_name),
      ("state", JsonValue.num 1),
      ("venueType", JsonValue.num 1),
      ("venueAddress", JsonValue.obj [("addressLine", JsonValue.str address)]),
      ("shippingAddress",
        JsonValue.obj [("addressLine", JsonValue.str address)])]) }

/-- Function `create_venue`. -/
def create_venue (org_id : Int) (venue_name address : String)
    (responses : Nat → Response) : ApiResult String :=
  jsonResult (handle_request_with_retries
    (create_venue_request org_id venue_name address) responses)

/-- The request built by `remove_business_org`. -/
def remove_business_org_request (org_id : Int) : Request :=
  { method := "DELETE", url := BASE_URL ++ "/organization/" ++ toString org_id,
    params := [], body := Option.none }

/-- Function `remove_business_org`: delegates and returns the status code only. -/
def remove_business_org (org_id : Int) (responses : Nat → Response) :
    ApiResult Nat :=
  statusResult (handle_request_with_retries (remove_business_org_request
    org_id) responses)

/-- The request built by `remove_venue`. -/
def remove_venue_request (venue_id : Int) : Request :=
  { method := "DELETE", url := BASE_URL ++ "/venues/" ++ toString venue_id,
    params := [], body := Option.none }

/-- Function `remove_venue`: delegates and returns the status code only. -/
def remove_venue (venue_id : Int) (responses : Nat → Response) :
    ApiResult Nat :=
  statusResult (handle_request_with_retries (remove_venue_request venue_id)
    responses)

/-- The request built by `remove_infrastructure`. -/
def remove_infrastructure_request (infra_id : Int) : Request :=
  { method := "DELETE",
    url := BASE_URL ++ "/infrastructure/" ++ toString infra_id,
    params := [], body := Option.none }

/-- Function `remove_infrastructure`: delegates and returns the status code only. -/
def remove_infrastructure (infra_id : Int) (responses : Nat → Response) :
    ApiResult Nat :=
  statusResult (handle_request_with_retries (remove_infrastructure_request
    infra_id) responses)

/-- Top-level field of a request's JSON body. -/
def Request.bodyField (req : Request) (key : String) : Option JsonValue :=
  match req.body with
  | Option.some j => j.getField key
  | Option.none => Option.none

/-- Field of a nested object inside a request's JSON body. -/
def Request.bodyField2 (req : Request) (k1 k2 : String) : Option JsonValue :=
  match req.bodyField k1 with
  | Option.some j => j.getField k2
  | Option.none => Option.none

/-- Oracle used by witnesses: two rate-limited responses, then success. -/
def respTwo429 : Nat → Response := fun i =>
  if i < 2 then { status_code := 429, body := "" }
  else { status_code := 200, body := "ok" }

/-- Oracle used by witnesses: every response is rate-limited. -/
def respAll429 : Nat → Response := fun _ => { status_code := 429, body := "" }

/-- Oracle used by witnesses: one rate-limited response, then a 404. -/
def resp429Then404 : Nat → Response := fun i =>
  if i = 0 then { status_code := 429, body := "" }
  else { status_code := 404, body := "missing" }

/-- Oracle used by witnesses: every response is a 304 redirect-class
status. -/
def resp304 : Nat → Response := fun _ => { status_code := 304, body := "" }

/-- Oracle used by witnesses: every response is 204 No Content. -/
def resp204 : Nat → Response := fun _ => { status_code := 204, body := "gone" }

/-- Oracle used by witnesses: every response is a 404. -/
def resp404 : Nat → Response := fun _ =>
  { status_code := 404, body := "not found" }

/-- A stand-in request descriptor for witnesses exercising the executor
directly. -/
def reqStub : Request :=
  { method := "GET", url := BASE_URL ++ "/venues", params := [],
    body := Option.none }

/-- Claim C1: if the first `k` responses are 429 and the `(k+1)`th is a
2xx success, with `k ≤ MAX_RETRIES`, then `handle_request_with_retries`
returns that response after exactly `k + 1` requests and exactly `k`
sleeps, the `i`-th sleep lasting `RETRY_BACKOFF_FACTOR ^ i`. -/
theorem retry_succeeds_after_k_rate_limits (req : Request)
    (responses : Nat → Response) (k : Nat) (hk : k ≤ MAX_RETRIES)
    (h429 : ∀ i, i < k → (responses i).status_code = 429)
    (h2xx : 200 ≤ (responses k).status_code)
    (h2xx2 : (responses k).status_code < 300) :
    handle_request_with_retries req responses =
      { outcome := Outcome.returned (responses k)
        requests := k + 1
        sleeps := (List.range k).map (fun i => RETRY_BACKOFF_FACTOR ^ i) } := by
  unfold handle_request_with_retries
  rw [handleLoop_skip responses k 0 (by omega)
    (fun i hi => by simpa using h429 i hi)]
  simp only [Nat.zero_add]
  rw [handleLoop_return responses k hk (by omega)
    (by simp only [raise_for_status_raises]; simp; omega)]
  simp [List.range_eq_range', Nat.add_comm]

/-- Witness for C1 at the spec scenario: responses 429, 429, 200 give two
sleeps of 1 and 2 seconds, then success after three requests. -/
theorem retry_succeeds_after_k_rate_limits_witness :
    handle_request_with_retries reqStub respTwo429 =
      { outcome := Outcome.returned { status_code := 200, body := "ok" }
        requests := 3
        sleeps := [1, 2] } := by
  have h := retry_succeeds_after_k_rate_limits reqStub respTwo429 2
    (by decide) (by decide) (by decide) (by decide)
  simpa [respTwo429] using h

/-- Claim C2: if every one of the first `MAX_RETRIES + 1` responses is
429, the call raises the retries-exhausted exception after exactly
`MAX_RETRIES + 1` requests. -/
theorem retry_exhausted_after_all_rate_limits (req : Request)
    (responses : Nat → Response)
    (h429 : ∀ i, i ≤ MAX_RETRIES → (responses i).status_code = 429) :
    handle_request_with_retries req responses =
      { outcome := Outcome.retryExhausted
        requests := MAX_RETRIES + 1
        sleeps := (List.range (MAX_RETRIES + 1)).map
          (fun i => RETRY_BACKOFF_FACTOR ^ i) } := by
  unfold handle_request_with_retries
  rw [handleLoop_skip responses (MAX_RETRIES + 1) 0 (by omega)
    (fun i hi => by simpa using h429 i (by omega))]
  rw [handleLoop_base responses (0 + (MAX_RETRIES + 1)) (by omega)]
  simp [List.range_eq_range']

/-- Witness for C2: six rate-limited responses exhaust the retries with
six requests sent and sleeps 1, 2, 4, 8, 16, 32. -/
theorem retry_exhausted_after_all_rate_limits_witness :
    handle_request_with_retries reqStub respAll429 =
      { outcome := Outcome.retryExhausted
        requests := 6
        sleeps := [1, 2, 4, 8, 16, 32] } := by
  have h := retry_exhausted_after_all_rate_limits reqStub respAll429
    (by decide)
  simpa using h

/-- Counterexample to C3 as stated: a 304 response is neither 2xx nor
429, yet `raise_for_status` does not raise for it, so the call returns
the response instead of reporting an HTTP error. -/
theorem non_2xx_immediate_error_counterexample :
    handle_request_with_retries reqStub resp304 =
      { outcome := Outcome.returned { status_code := 304, body := "" }
        requests := 1
        sleeps := [] } := by
  unfold handle_request_with_retries
  rw [handleLoop_return resp304 0 (by decide) (by decide) (by decide)]
  rfl

/-- Claim C3 (amended): an attempt whose response status lies in
`[400, 600)` and is not 429 makes the call report an HTTP error carrying
that status immediately: no further sleep and no further request beyond
those of the preceding rate-limited attempts. -/
theorem http_error_immediate (req : Request) (responses : Nat → Response)
    (k : Nat) (hk : k ≤ MAX_RETRIES)
    (h429 : ∀ i, i < k → (responses i).status_code = 429)
    (herr : 400 ≤ (responses k).status_code)
    (herr2 : (responses k).status_code < 600)
    (hne : (responses k).status_code ≠ 429) :
    handle_request_with_retries req responses =
      { outcome := Outcome.httpError (responses k).status_code
          (responses k).body
        requests := k + 1
        sleeps := (List.range k).map (fun i => RETRY_BACKOFF_FACTOR ^ i) } := by
  unfold handle_request_with_retries
  rw [handleLoop_skip responses k 0 (by omega)
    (fun i hi => by simpa using h429 i hi)]
  simp only [Nat.zero_add]
  rw [handleLoop_raise responses k hk hne
    (by simp only [raise_for_status_raises]; simp; omega)]
  simp [List.range_eq_range', Nat.add_comm]

/-- Witness for C3 (amended): a 429 followed by a 404 gives one sleep of
1 second and then an HTTP error after two requests. -/
theorem http_error_immediate_witness :
    handle_request_with_retries reqStub resp429Then404 =
      { outcome := Outcome.httpError 404 "missing"
        requests := 2
        sleeps := [1] } := by
  have h := http_error_immediate reqStub resp429Then404 1 (by decide)
    (by decide) (by decide) (by decide) (by decide)
  simpa [resp429Then404] using h

/-- Claim C4: the retry loop terminates on every response oracle — the
embedding is a total function — and a single call sends at most
`MAX_RETRIES + 1` requests, ending in a returned response, an HTTP
error, or the retries-exhausted exception. -/
theorem retry_loop_bounded (req : Request) (responses : Nat → Response) :
    (handle_request_with_retries req responses).requests ≤ MAX_RETRIES + 1 ∧
    ((∃ r, (handle_request_with_retries req responses).outcome =
        Outcome.returned r) ∨
      (∃ s b, (handle_request_with_retries req responses).outcome =
        Outcome.httpError s b) ∨
      (handle_request_with_retries req responses).outcome =
        Outcome.retryExhausted) := by
  constructor
  · exact handleLoop_requests_le responses (MAX_RETRIES + 1) 0 (by omega)
  · cases h : (handle_request_with_retries req responses).outcome with
    | returned r => exact Or.inl ⟨r, rfl⟩
    | httpError s b => exact Or.inr (Or.inl ⟨s, b, rfl⟩)
    | retryExhausted => exact Or.inr (Or.inr rfl)

/-- Claim C5: for every display name, type id, parent id and address,
`create_business_org` sends a POST body whose `orgAddress.addressLine`
and `billingAddress.addressLine` both equal the given address, with
empty `phone`, `notes` and `billingRecipients` fields. -/
theorem create_business_org_body_fields (org_display_name : String)
    (org_type_id parent_org_id : Int) (address : String) :
    (create_business_org_request org_display_name org_type_id parent_org_id
        address).method = "POST" ∧
    (create_business_org_request org_display_name org_type_id parent_org_id
        address).bodyField2 "orgAddress" "addressLine" =
      Option.some (JsonValue.str address) ∧
    (create_business_org_request org_display_name org_type_id parent_org_id
        address).bodyField2 "billingAddress" "addressLine" =
      Option.some (JsonValue.str address) ∧
    (create_business_org_request org_display_name org_type_id parent_org_id
        address).bodyField "phone" = Option.some (JsonValue.str "") ∧
    (create_business_org_request org_display_name org_type_id parent_org_id
        address).bodyField "notes" = Option.some (JsonValue.str "") ∧
    (create_business_org_request org_display_name org_type_id parent_org_id
        address).bodyField "billingRecipients" =
      Option.some (JsonValue.str "") :=
  ⟨rfl, rfl, rfl, rfl, rfl, rfl⟩

/-- Claim C6: with no search query, the parameter mapping sent by
`get_venues` has exactly the keys orgId, offset, limit, order, orderBy,
and no `search` key. -/
theorem get_venues_no_search_param (org_id offset limit : Int)
    (order order_by : String) :
    (get_venues_request org_id offset limit order order_by
        Option.none).params.map Prod.fst =
      ["orgId", "offset", "limit", "order", "orderBy"] ∧
    List.lookup "search" (get_venues_request org_id offset limit order
      order_by Option.none).params = Option.none :=
  ⟨rfl, rfl⟩

/-- Claim C7: `create_venue` sends a POST body with `parentVenueId = 0`,
`state = 1`, `venueType = 1`, and the given address as the `addressLine`
of both `venueAddress` and `shippingAddress`. -/
theorem create_venue_body_fields (org_id : Int)
    (venue_name address : String) :
    (create_venue_request org_id venue_name address).method = "POST" ∧
    (create_venue_request org_id venue_name address).bodyField
      "parentVenueId" = Option.some (JsonValue.num 0) ∧
    (create_venue_request org_id venue_name address).bodyField "state" =
      Option.some (JsonValue.num 1) ∧
    (create_venue_request org_id venue_name address).bodyField "venueType" =
      Option.some (JsonValue.num 1) ∧
    (create_venue_request org_id venue_name address).bodyField2
      "venueAddress" "addressLine" = Option.some (JsonValue.str address) ∧
    (create_venue_request org_id venue_name address).bodyField2
      "shippingAddress" "addressLine" = Option.some (JsonValue.str address) :=
  ⟨rfl, rfl, rfl, rfl, rfl, rfl⟩

/-- Claim C8: when the executor returns a response, each remove function
returns exactly the response's status code, never its body. -/
theorem remove_returns_status_code (responses : Nat → Response)
    (org_id venue_id infra_id : Int) (r : Response)
    (h : (handleLoop responses 0).outcome = Outcome.returned r) :
    remove_business_org org_id responses = ApiResult.ok r.status_code ∧
    remove_venue venue_id responses = ApiResult.ok r.status_code ∧
    remove_infrastructure infra_id responses = ApiResult.ok r.status_code := by
  refine ⟨?_, ?_, ?_⟩ <;>
    simp [remove_business_org, remove_venue, remove_infrastructure,
      statusResult, handle_request_with_retries, h]

/-- Witness for C8: a 204 response with body "gone" makes all three
remove functions return the status code 204. -/
theorem remove_returns_status_code_witness :
    remove_business_org 1 resp204 = ApiResult.ok 204 ∧
    remove_venue 2 resp204 = ApiResult.ok 204 ∧
    remove_infrastructure 3 resp204 = ApiResult.ok 204 := by
  have h : (handleLoop resp204 0).outcome =
      Outcome.returned { status_code := 204, body := "gone" } := by
    rw [handleLoop_return resp204 0 (by decide) (by decide) (by decide)]
    rfl
  exact remove_returns_status_code resp204 1 2 3
    { status_code := 204, body := "gone" } h

/-- Claim C9: a remove call answered with an error status in `[400, 600)`
other than 429 (such as 404 for an already-removed resource) reports an
HTTP error carrying that status, after exactly one request and no
sleep — no retry, no crash, no returned status code. -/
theorem remove_missing_resource_http_error (responses : Nat → Response)
    (org_id venue_id infra_id : Int) (s : Nat) (b : String)
    (h4 : 400 ≤ s) (h6 : s < 600) (hne : s ≠ 429)
    (h0 : responses 0 = { status_code := s, body := b }) :
    remove_business_org org_id responses = ApiResult.httpError s b ∧
    remove_venue venue_id responses = ApiResult.httpError s b ∧
    remove_infrastructure infra_id responses = ApiResult.httpError s b ∧
    (handleLoop responses 0).requests = 1 ∧
    (handleLoop responses 0).sleeps = [] := by
  have h429x : (responses 0).status_code ≠ 429 := by rw [h0]; exact hne
  have herr : raise_for_status_raises (responses 0).status_code = true := by
    rw [h0]; simp only [raise_for_status_raises]; simp; omega
  have hret := handleLoop_raise responses 0 (by omega) h429x herr
  rw [h0] at hret
  refine ⟨?_, ?_, ?_, ?_, ?_⟩ <;>
    simp [remove_business_org, remove_venue, remove_infrastructure,
      statusResult, handle_request_with_retries, hret]

/-- Witness for C9: a 404 answer makes all three remove functions report
an HTTP error with status 404 after one request and no sleep. -/
theorem remove_missing_resource_http_error_witness :
    remove_business_org 1 resp404 = ApiResult.httpError 404 "not found" ∧
    remove_venue 2 resp404 = ApiResult.httpError 404 "not found" ∧
    remove_infrastructure 3 resp404 = ApiResult.httpError 404 "not found" ∧
    (handleLoop resp404 0).requests = 1 ∧
    (handleLoop resp404 0).sleeps = [] :=
  remove_missing_resource_http_error resp404 1 2 3 404 "not found"
    (by decide) (by decide) (by decide) rfl

/-- Claim C10: `get_venues` omits the `search` parameter for every falsy
search query — `None` and the empty string alike — while
`find_business_org` always includes a `search` key, even for an empty
query. -/
theorem search_param_truthiness (org_id offset limit : Int)
    (order order_by : String) (q : String) :
    List.lookup "search" (get_venues_request org_id offset limit order
      order_by Option.none).params = Option.none ∧
    List.lookup "search" (get_venues_request org_id offset limit order
      order_by (Option.some "")).params = Option.none ∧
    List.lookup "search" (find_business_org_request q offset limit order
      order_by).params = Option.some (PValue.str q) :=
  ⟨rfl, rfl, rfl⟩
